import Mathlib

/-!
Verification of the `file_sender` Telegram bot (`src/bot.py`) against its
natural-language specification.  The Python source is shallowly embedded:
pure fragments become Lean functions, stateful handlers become functions
from an explicit state to an outcome plus the updated state, the clock is
modelled by an arbitrary linearly ordered commutative ring (instantiated
at `ℤ` for concrete runs), and every interaction with the external
Telegram client or the HTTP shortening service is modelled by an oracle
argument supplied to the handler.
-/

namespace FileSender

/-! ### Constants (src/bot.py lines 52-61)

Durations are whole numbers of seconds in the source (`MIN_MESSAGE_DELAY`
is the float `1.0`), so they are kept as naturals here and cast into
whatever ordered ring models the clock. -/

def SEARCH_LIMIT : ℕ := 50

def VERIFICATION_DURATION : ℕ := 3600

def PAGE_SIZE : ℕ := 10

def ADMIN_PASSWORD : String := "12122"

def RATE_LIMIT_WINDOW : ℕ := 30

def RATE_LIMIT_MAX_MESSAGES : ℕ := 20

def MIN_MESSAGE_DELAY : ℕ := 1

def CACHE_DURATION : ℕ := 300

/-! ### Python string primitives

The Lean builtins `String.trim`, `String.toLower` and `String.toNat?` do not
reduce inside the kernel, so the Python operations used by the bot are
implemented here directly on the character list of the string. -/

/-- The whitespace characters stripped by the Python method `str.strip()`
(ASCII part). -/
def isSpaceChar (c : Char) : Bool :=
  c = ' ' || c = '\t' || c = '\n' || c = '\r' || c.toNat = 11 || c.toNat = 12

def dropLeadingWs : List Char → List Char
  | [] => []
  | c :: rest => if isSpaceChar c then dropLeadingWs rest else c :: rest

/-- Python `str.strip()` on the character list: drop leading and trailing
whitespace. -/
def pyStripL (l : List Char) : List Char :=
  ((dropLeadingWs (dropLeadingWs l).reverse)).reverse

/-- ASCII lowercasing of one character (Python `str.lower()`; non-ASCII
case folding is not modelled, no verified claim depends on it). -/
def asciiLowerChar (c : Char) : Char :=
  if 'A' ≤ c ∧ c ≤ 'Z' then Char.ofNat (c.toNat + 32) else c

/-- Python `str.lower()`. -/
def pyLower (s : String) : String := ⟨s.data.map asciiLowerChar⟩

/-- Python `str.strip()`. -/
def pyStrip (s : String) : String := ⟨pyStripL s.data⟩

def isDigitChar (c : Char) : Bool := '0' ≤ c && c ≤ '9'

/-- Value of a nonempty all-digit character list, `none` on any
non-digit. -/
def digitsToNat (acc : ℕ) : List Char → Option ℕ
  | [] => some acc
  | c :: rest =>
    if isDigitChar c then digitsToNat (acc * 10 + (c.toNat - '0'.toNat)) rest
    else none

/-! ### Chat membership and `check_subscription` (bot.py lines 176-191) -/

/-- `pyrogram.enums.ChatMemberStatus`, the possible results of `get_chat_member`. -/
inductive ChatStatus
  | member
  | administrator
  | owner
  | restricted
  | left
  | banned
deriving DecidableEq

/-- Outcome of one `client.get_chat_member(channel_id, user_id)` call: either a
status, or one of the exceptions distinguished by `check_subscription`. -/
inductive MemberRes
  | st (s : ChatStatus)
  | userNotParticipant
  | peerIdInvalid
  | otherError
deriving DecidableEq

/-- The membership test at bot.py:183:
`member.status in (MEMBER, ADMINISTRATOR, OWNER)`. -/
def goodStatus : ChatStatus → Bool
  | .member => true
  | .administrator => true
  | .owner => true
  | _ => false

/-- `true` iff the lookup succeeded and reported a subscribed status. -/
def memberOk : MemberRes → Bool
  | .st s => goodStatus s
  | _ => false

/-- The `for channel_id in force_sub_channels` loop of `check_subscription`
(bot.py:180-190): every exception path and every non-member status returns
`False`; an exhausted loop returns `True`. -/
def checkChannels (m : ℤ → ℤ → MemberRes) (userId : ℤ) : List ℤ → Bool
  | [] => true
  | ch :: rest =>
    match m ch userId with
    | .st s => if goodStatus s then checkChannels m userId rest else false
    | .userNotParticipant => false
    | .peerIdInvalid => false
    | .otherError => false

/-- `check_subscription(client, user_id, chat_id)` (bot.py:177-191).
`m ch u` is the oracle for `client.get_chat_member(ch, u)`. -/
def check_subscription (m : ℤ → ℤ → MemberRes) (userId chatId : ℤ)
    (channels : List ℤ) : Bool :=
  if chatId < 0 then true
  else checkChannels m userId channels

/-! ### Process-wide dictionaries, as association lists -/

/-- `admin_pending_action[user_id]` lookup (`user_id in admin_pending_action`
plus the subsequent read). -/
def lookupP : List (ℤ × String) → ℤ → Option String
  | [], _ => none
  | e :: rest, u => if e.1 = u then some e.2 else lookupP rest u

/-- `dict.pop(user_id, None)`: remove the entry for a key. -/
def eraseP : List (ℤ × String) → ℤ → List (ℤ × String)
  | [], _ => []
  | e :: rest, u => if e.1 = u then eraseP rest u else e :: eraseP rest u

/-- `dict[user_id] = value`: overwrite the entry for a key. -/
def setP (p : List (ℤ × String)) (u : ℤ) (a : String) : List (ℤ × String) :=
  (u, a) :: eraseP p u

/-- The slice of the module-level mutable state that the verified handlers
read or write (bot.py lines 36-48). -/
structure BotState where
  adminList : List ℤ
  pending : List (ℤ × String)
  messagePairs : List ℤ
  forceSub : List ℤ
  batchesKeys : List String
  batchKw : List (ℤ × String)
deriving DecidableEq

/-! ### The text handler `handle_query` (bot.py lines 434-767) -/

/-- `message.text.strip().lower()` (bot.py:439). -/
def normalizeQ (s : String) : String := pyLower (pyStrip s)

/-- How a run of `handle_query` ends.  `contentSearch` stands for reaching the
content-producing tail of the handler (bot.py:625 onwards: the "Searching"
reply, batch matching, cached or fanned-out channel search and the result
display). -/
inductive QueryOutcome
  | ignoredDuplicate
  | passwordAccepted (action : String)
  | passwordRejected
  | batchKeywordInvalid
  | batchKeywordSet (kw : String)
  | editKeywordInvalid
  | editKeywordMissing (kw : String)
  | editKeywordSet (kw : String)
  | batchDone
  | raisedKeyError
  | joinPrompt
  | tooShort
  | groupNoPrivs
  | contentSearch (q : String)
deriving DecidableEq

/-- Outcome of `handle_query` together with the updated
`admin_pending_action` and `admin_batch_keywords` maps. -/
structure QueryResult where
  outcome : QueryOutcome
  pending : List (ℤ × String)
  batchKw : List (ℤ × String)
deriving DecidableEq

/-- Does the outcome produce content (search results / file buttons)? -/
def isContent : QueryOutcome → Bool
  | .contentSearch _ => true
  | _ => false

/-- Outcomes produced only by the genbatch/editbatch keyword-input block
(bot.py lines 539-603). -/
def isBatchBlockOutcome : QueryOutcome → Bool
  | .batchKeywordInvalid => true
  | .batchKeywordSet _ => true
  | .editKeywordInvalid => true
  | .editKeywordMissing _ => true
  | .editKeywordSet _ => true
  | .batchDone => true
  | .raisedKeyError => true
  | _ => false

/-- The tail of `handle_query` after the admin blocks (bot.py lines 605-624
and onwards): subscription gate, minimum query length, group-privilege
check, then the content-producing search code.  `privs ch` is the oracle
for `check_bot_privileges(client, ch)`. -/
def hqRest (s : BotState) (m : ℤ → ℤ → MemberRes) (privs : ℤ → Bool)
    (userId chatId : ℤ) (q : String) : QueryResult :=
  if 0 < chatId ∧ s.forceSub ≠ [] ∧
      check_subscription m userId chatId s.forceSub = false then
    ⟨.joinPrompt, s.pending, s.batchKw⟩
  else if q.length < 3 then
    ⟨.tooShort, s.pending, s.batchKw⟩
  else if chatId < 0 ∧ privs chatId = false then
    ⟨.groupNoPrivs, s.pending, s.batchKw⟩
  else
    ⟨.contentSearch q, s.pending, s.batchKw⟩

/-- `handle_query` (bot.py lines 436-624, with the content-producing tail
abstracted into the `contentSearch` outcome).  The structure mirrors the
source: the duplicate-message guard (441-444), the admin password block
(452-537, which `return`s on both the matching and the non-matching
branch), the genbatch/editbatch keyword block (539-603, guarded by the
same condition as the password block), and then `hqRest`.  Logging,
search-history and search-count updates do not affect any verified claim
and are omitted. -/
def handle_query (s : BotState) (m : ℤ → ℤ → MemberRes) (privs : ℤ → Bool)
    (userId chatId : ℤ) (text : String) : QueryResult :=
  let q := normalizeQ text
  if chatId ∈ s.messagePairs then
    ⟨.ignoredDuplicate, s.pending, s.batchKw⟩
  else if 0 < chatId ∧ userId ∈ s.adminList ∧ (lookupP s.pending userId).isSome then
    if q = ADMIN_PASSWORD then
      ⟨.passwordAccepted ((lookupP s.pending userId).getD ""),
        eraseP s.pending userId, s.batchKw⟩
    else
      ⟨.passwordRejected, eraseP s.pending userId, s.batchKw⟩
  else if 0 < chatId ∧ userId ∈ s.adminList ∧ (lookupP s.pending userId).isSome then
    match lookupP s.pending userId with
    | some a =>
      if a = "genbatch_keyword" then
        if q = "" then ⟨.batchKeywordInvalid, s.pending, s.batchKw⟩
        else
          ⟨.batchKeywordSet (pyLower q), setP s.pending userId "genbatch_files",
            setP s.batchKw userId (pyLower q)⟩
      else if a = "editbatch_keyword" then
        if q = "" then ⟨.editKeywordInvalid, s.pending, s.batchKw⟩
        else if (pyLower q) ∉ s.batchesKeys then
          ⟨.editKeywordMissing (pyLower q), eraseP s.pending userId, s.batchKw⟩
        else
          ⟨.editKeywordSet (pyLower q), setP s.pending userId "editbatch_files",
            setP s.batchKw userId (pyLower q)⟩
      else if (a = "genbatch_files" ∨ a = "editbatch_files") ∧ (pyLower q) = "done" then
        match lookupP s.batchKw userId with
        | some _ => ⟨.batchDone, eraseP s.pending userId, eraseP s.batchKw userId⟩
        | none => ⟨.raisedKeyError, s.pending, s.batchKw⟩
      else hqRest s m privs userId chatId q
    | none => hqRest s m privs userId chatId q
  else hqRest s m privs userId chatId q

/-! ### The `/start` handler (bot.py lines 299-349), subscription slice -/

/-- Outcome of `/start`: either the join prompt, or the served greeting
(`welcome` = the private-chat welcome message was sent, `adminMenu` = the
admin menu rather than the plain greeting followed). -/
inductive StartOutcome
  | joinPrompt
  | served (welcome adminMenu : Bool)
deriving DecidableEq

/-- The `/start` handler (bot.py:299-349).  Start-id generation and logging
are omitted; they affect no verified claim. -/
def start_handler (s : BotState) (m : ℤ → ℤ → MemberRes)
    (userId chatId : ℤ) : StartOutcome :=
  if 0 < chatId ∧ s.forceSub ≠ [] ∧
      check_subscription m userId chatId s.forceSub = false then
    .joinPrompt
  else
    .served (0 < chatId) (0 < chatId ∧ userId ∈ s.adminList)

/-! ### The `get_` file-delivery callback (bot.py lines 967-1016) -/

/-- Outcome of the `get_` branch of `handle_callbacks`. -/
inductive GetOutcome
  | joinPrompt
  | shortenedLink
  | directLink
deriving DecidableEq

/-- The `get_` branch of `handle_callbacks` (bot.py:967-1016):
subscription gate (973-981), then link delivery, shortened exactly when
`now - verified_time > VERIFICATION_DURATION` (986). -/
def get_file_callback {T : Type} [LinearOrderedCommRing T] (s : BotState)
    (m : ℤ → ℤ → MemberRes) (userId chatId : ℤ)
    (verifiedTime now : T) : GetOutcome :=
  if 0 < chatId ∧ s.forceSub ≠ [] ∧
      check_subscription m userId chatId s.forceSub = false then
    .joinPrompt
  else if (VERIFICATION_DURATION : T) < now - verifiedTime then
    .shortenedLink
  else
    .directLink

/-! ### The rate limiter `rate_limit_message` (bot.py lines 69-92) -/

/-- The cleanup loop at bot.py:74-75:
`while message_timestamps and now - message_timestamps[0] > RATE_LIMIT_WINDOW:
popleft()`. -/
def dropOld {T : Type} [LinearOrderedCommRing T] (window now : T) :
    List T → List T
  | [] => []
  | t :: rest => if now - t > window then dropOld window now rest else t :: rest

/-- `deque.append` with a `maxlen` bound: when the deque is full the oldest
entry is discarded (bot.py:64 creates the deque with
`maxlen=RATE_LIMIT_MAX_MESSAGES`). -/
def dequeAppend {T : Type} (maxlen : ℕ) (ts : List T) (x : T) : List T :=
  if maxlen = 0 then []
  else if maxlen ≤ ts.length then ts.tail ++ [x]
  else ts ++ [x]

/-- `rate_limit_message()` (bot.py:69-92) as a pure function of the globals
it reads (`RATE_LIMIT_MAX_MESSAGES`, `MIN_MESSAGE_DELAY`,
`RATE_LIMIT_WINDOW`), the timestamp deque and the clock reading `now`
taken at bot.py:71.  Returns the total time slept and the updated deque.
Note that the appended timestamp is `now`, the clock reading taken
*before* any sleeping. -/
def rate_limit_message {T : Type} [LinearOrderedCommRing T] (maxMsgs : ℕ)
    (minDelay window : T) (ts : List T) (now : T) : T × List T :=
  let ts1 := dropOld window now ts
  let sleep1 :=
    if maxMsgs ≤ ts1.length then
      let wait := window - (now - ts1.headD 0)
      if 0 < wait then wait else 0
    else 0
  let ts2 := dequeAppend maxMsgs ts1 now
  let sleep2 :=
    if 1 < ts2.length then
      let last := ts2.getD (ts2.length - 2) 0
      let since := now - last
      if since < minDelay then minDelay - since else 0
    else 0
  (sleep1 + sleep2, ts2)

/-- The single consumer `send_message_queue` (bot.py:95-114) draining `n`
pre-queued sends back to back: each iteration reads the clock as `now`,
sleeps as `rate_limit_message` dictates, and performs the send, which we
take to be instantaneous.  Returns the wall-clock times of the actual
sends. -/
def runQueue {T : Type} [LinearOrderedCommRing T] (maxMsgs : ℕ)
    (minDelay window : T) : ℕ → List T → T → List T
  | 0, _, _ => []
  | n + 1, ts, t =>
    let r := rate_limit_message maxMsgs minDelay window ts t
    (t + r.1) :: runQueue maxMsgs minDelay window n r.2 (t + r.1)

/-- Number of sends inside the closed window `[t, t + w]`. -/
def countInWindow {T : Type} [LinearOrderedCommRing T]
    (sends : List T) (t w : T) : ℕ :=
  (sends.filter (fun s => decide (t ≤ s) && decide (s ≤ t + w))).length

/-- The window guarantee of claim C1 over actual send times: every window of
length `w` holds at most `maxMsgs` sends (it suffices to check windows
anchored at a send). -/
def windowCapped {T : Type} [LinearOrderedCommRing T] (maxMsgs : ℕ)
    (w : T) (sends : List T) : Bool :=
  sends.all (fun t => decide (countInWindow sends t w ≤ maxMsgs))

/-- The spacing guarantee of claim C1: consecutive sends are at least `d`
seconds apart. -/
def minSpaced {T : Type} [LinearOrderedCommRing T] (d : T) : List T → Bool
  | [] => true
  | [_] => true
  | a :: b :: rest => decide (a + d ≤ b) && minSpaced d (b :: rest)

/-! ### The outbound queue worker and `FloodWait` (bot.py lines 95-114) -/

/-- Result of invoking one queued call: success, the flood-control signal of the client library carrying a wait duration, or any other exception. -/
inductive SendRes
  | ok
  | floodWait (d : ℕ)
  | err
deriving DecidableEq

def isFloodWait : SendRes → Bool
  | .floodWait _ => true
  | _ => false

/-- Observable events of the worker loop: a call invocation, or a
`asyncio.sleep` performed by the `FloodWait` handler. -/
inductive SendEvent
  | invoke (i : ℕ)
  | slept (d : ℕ)
deriving DecidableEq

/-- The `while not message_queue.empty()` loop of `send_message_queue`
(bot.py:101-112): each queued call is taken off the queue and invoked
once; `except errors.FloodWait as e` sleeps `e.value` and the loop moves
on to the next item; any other exception is logged and the loop moves on.
`beh i` is the oracle for what invoking call `i` does.  (The
`rate_limit_message` sleeps are modelled separately by `runQueue`.) -/
def send_message_queue (beh : ℕ → SendRes) : List ℕ → List SendEvent
  | [] => []
  | i :: rest =>
    match beh i with
    | .ok => .invoke i :: send_message_queue beh rest
    | .floodWait d => .invoke i :: .slept d :: send_message_queue beh rest
    | .err => .invoke i :: send_message_queue beh rest

/-- How many times call `i` was invoked in an event trace. -/
def invokeCount (i : ℕ) (es : List SendEvent) : ℕ :=
  (es.filter (fun e => decide (e = SendEvent.invoke i))).length

/-- Claim C4 as stated: a queued call whose invocation raises `FloodWait`
is retried exactly once, i.e. invoked twice in total. -/
def retriesOnceOnFloodWait (beh : ℕ → SendRes) (q : List ℕ) : Prop :=
  ∀ i ∈ q, isFloodWait (beh i) = true →
    invokeCount i (send_message_queue beh q) = 2

instance (beh : ℕ → SendRes) (q : List ℕ) :
    Decidable (retriesOnceOnFloodWait beh q) := by
  unfold retriesOnceOnFloodWait; infer_instance

/-! ### `shorten_link` (bot.py lines 126-140) -/

/-- Result of the HTTP GET against the shortening service: a response with
a status code and body text, or any exception (connection failure,
timeout, body-read failure). -/
inductive HttpFetch
  | response (status : ℕ) (body : String)
  | raised
deriving DecidableEq

/-- `shorten_link(long_url)` (bot.py:126-140): on status 200 return the
stripped response body, on any other status return `long_url`, and on any
exception return `long_url`. -/
def shorten_link (f : HttpFetch) (longUrl : String) : String :=
  match f with
  | .response st body => if st = 200 then pyStrip body else longUrl
  | .raised => longUrl

/-! ### Environment loading (bot.py lines 20-29) -/

/-- The Python builtin `int(s)` on a string, modelled for ASCII decimal literals:
surrounding whitespace is stripped and an optional sign may precede the
digits.  (Underscore digit grouping and non-ASCII digits are not
modelled; none of the verified claims depends on them.) -/
def pyIntOfString (s : String) : Option ℤ :=
  match pyStripL s.data with
  | [] => none
  | '-' :: rest =>
    match rest with
    | [] => none
    | _ => (digitsToNat 0 rest).map (fun n => -(n : ℤ))
  | '+' :: rest =>
    match rest with
    | [] => none
    | _ => (digitsToNat 0 rest).map (fun n => (n : ℤ))
  | l => (digitsToNat 0 l).map (fun n => (n : ℤ))

/-- The parsed configuration produced by the module-level `try` block. -/
structure EnvConfig where
  apiId : ℤ
  apiHash : Option String
  botToken : Option String
  adminId : ℤ
  gplinkApiKey : Option String
deriving DecidableEq

/-- The module-level environment loading (bot.py:21-29).  `env k` is the
oracle for `os.getenv(k)`.  `int(None)` raises `TypeError` and `int` of a
malformed string raises `ValueError`; both are caught and turn into
`raise SystemExit`, modelled as `none`.  The three plain `os.getenv`
reads (`API_HASH`, `BOT_TOKEN`, `GPLINK_API_KEY`) cannot raise: a missing
variable simply yields `None`. -/
def loadEnv (env : String → Option String) : Option EnvConfig :=
  match (env "API_ID").bind pyIntOfString with
  | none => none
  | some apiId =>
    match (env "ADMIN_ID").bind pyIntOfString with
    | none => none
    | some adminId =>
      some ⟨apiId, env "API_HASH", env "BOT_TOKEN", adminId, env "GPLINK_API_KEY"⟩

/-! ### Pagination (bot.py lines 745-747 and 1018-1053) -/

/-- `[results[i:i + PAGE_SIZE] for i in range(0, len(results), PAGE_SIZE)]`
(bot.py:745 and 1028).  The `n = 0` guard is unreachable in the program
(`PAGE_SIZE = 10`); it only serves totality. -/
def chunks (n : ℕ) : List α → List (List α)
  | [] => []
  | x :: xs =>
    if n = 0 then []
    else (x :: xs).take n :: chunks n ((x :: xs).drop n)
termination_by l => l.length
decreasing_by
  simp only [List.length_drop, List.length_cons]
  omega

/-- Outcome of the `page_` branch of `handle_callbacks`. -/
inductive PageOutcome (α : Type)
  | expiredOrMissing
  | invalidPage
  | showPage (page : List α)
  | indexError
deriving DecidableEq

/-- The `page_` branch of `handle_callbacks` (bot.py:1018-1053): reject
when the cache entry or its expiry is missing or `now >= expiry`
(1022-1025), chunk the cached results into pages (1028), reject
`page_num < 1 or page_num > len(pages)` (1029-1032), otherwise display
`pages[page_num - 1]` (1034).  Python list indexing is modelled by
`List.get?`, with an out-of-range access surfacing as `indexError`. -/
def page_callback {T : Type} [LinearOrder T] (cache : Option (List α))
    (expiry : Option T) (now : T) (pageNum : ℤ) : PageOutcome α :=
  match cache, expiry with
  | some results, some exp =>
    if exp ≤ now then .expiredOrMissing
    else
      let pages := chunks PAGE_SIZE results
      if pageNum < 1 ∨ (pages.length : ℤ) < pageNum then .invalidPage
      else
        match pages.get? (pageNum - 1).toNat with
        | some p => .showPage p
        | none => .indexError
  | _, _ => .expiredOrMissing

/-! ### Concrete scenarios used by the counterexamples and witnesses -/

/-- A membership oracle under which every lookup reports the user as not a
participant of the channel. -/
def allNotParticipant : ℤ → ℤ → MemberRes := fun _ _ => .userNotParticipant

/-- A privilege oracle under which the bot is admin everywhere. -/
def allPrivs : ℤ → Bool := fun _ => true

/-- One forced-subscription channel, no admins, no pending actions. -/
def groupState : BotState := ⟨[], [], [], [-1001], [], []⟩

/-- Admin `9` has the pending action `"add_db"`; no other state. -/
def pendingState : BotState := ⟨[9], [(9, "add_db")], [], [], [], []⟩

/-- Chat `7` currently has an active request/response message pair. -/
def dupState : BotState := ⟨[], [], [7], [], [], []⟩

/-- An environment with valid `API_ID` and `ADMIN_ID` but with
`BOT_TOKEN` (and `API_HASH`, `GPLINK_API_KEY`) missing. -/
def envMissingToken : String → Option String := fun k =>
  if k = "API_ID" then some "123"
  else if k = "ADMIN_ID" then some "456"
  else none

/-- A call behaviour under which every invocation raises `FloodWait(5)`. -/
def alwaysFloodWait : ℕ → SendRes := fun _ => .floodWait 5

/-! ### Helper lemmas -/

theorem lookupP_eraseP (p : List (ℤ × String)) (u v : ℤ) :
    lookupP (eraseP p u) v = if v = u then none else lookupP p v := by
  induction p with
  | nil => simp [eraseP, lookupP]
  | cons e rest ih =>
    by_cases h1 : e.1 = u
    · rw [eraseP, if_pos h1, ih]
      by_cases h2 : v = u
      · simp [h2]
      · have : ¬ e.1 = v := fun hv => h2 (hv ▸ h1.symm ▸ rfl)
        simp [h2, lookupP, this]
    · rw [eraseP, if_neg h1]
      by_cases h2 : e.1 = v
      · have : ¬ v = u := fun hv => h1 (by rw [h2, hv])
        simp [lookupP, h2, this]
      · simp [lookupP, h2, ih]

theorem checkChannels_eq_false (m : ℤ → ℤ → MemberRes) (u : ℤ)
    (cs : List ℤ) (ch : ℤ) (hmem : ch ∈ cs)
    (hbad : memberOk (m ch u) = false) : checkChannels m u cs = false := by
  induction cs with
  | nil => cases hmem
  | cons c rest ih =>
    rcases List.mem_cons.mp hmem with rfl | hmem'
    · rw [checkChannels]
      cases hm : m ch u with
      | st s =>
        rw [hm] at hbad
        simp only [memberOk] at hbad
        simp [hbad]
      | userNotParticipant => rfl
      | peerIdInvalid => rfl
      | otherError => rfl
    · rw [checkChannels]
      cases hm : m c u with
      | st s =>
        by_cases hg : goodStatus s = true
        · simp [hg, ih hmem']
        · simp [Bool.not_eq_true] at hg
          simp [hg]
      | userNotParticipant => rfl
      | peerIdInvalid => rfl
      | otherError => rfl

theorem check_subscription_eq_false (m : ℤ → ℤ → MemberRes) (u chatId : ℤ)
    (cs : List ℤ) (hc : ¬ chatId < 0)
    (hbad : ∃ ch ∈ cs, memberOk (m ch u) = false) :
    check_subscription m u chatId cs = false := by
  obtain ⟨ch, hmem, hb⟩ := hbad
  rw [check_subscription, if_neg hc]
  exact checkChannels_eq_false m u cs ch hmem hb

theorem chunks_cons {α : Type} (n : ℕ) (hn : n ≠ 0) (x : α) (xs : List α) :
    chunks n (x :: xs) = (x :: xs).take n :: chunks n ((x :: xs).drop n) := by
  rw [chunks]
  simp [hn]

theorem chunks_join_fuel {α : Type} (n : ℕ) (hn : n ≠ 0) :
    ∀ (k : ℕ) (l : List α), l.length ≤ k → (chunks n l).flatten = l := by
  intro k
  induction k with
  | zero =>
    intro l hl
    cases l with
    | nil => simp [chunks]
    | cons x xs => simp at hl
  | succ k ih =>
    intro l hl
    cases l with
    | nil => simp [chunks]
    | cons x xs =>
      rw [chunks_cons n hn x xs]
      have hlen : ((x :: xs).drop n).length ≤ k := by
        simp only [List.length_drop, List.length_cons]
        simp only [List.length_cons] at hl
        omega
      rw [List.flatten_cons, ih ((x :: xs).drop n) hlen, List.take_append_drop]

theorem chunks_join {α : Type} (n : ℕ) (hn : n ≠ 0) (l : List α) :
    (chunks n l).flatten = l :=
  chunks_join_fuel n hn l.length l le_rfl

theorem chunks_mem_length_fuel {α : Type} (n : ℕ) :
    ∀ (k : ℕ) (l : List α), l.length ≤ k →
      ∀ p ∈ chunks n l, p.length ≤ n := by
  intro k
  induction k with
  | zero =>
    intro l hl p hp
    cases l with
    | nil => simp [chunks] at hp
    | cons x xs => simp at hl
  | succ k ih =>
    intro l hl p hp
    cases l with
    | nil => simp [chunks] at hp
    | cons x xs =>
      by_cases hn : n = 0
      · rw [chunks, if_pos hn] at hp
        cases hp
      · rw [chunks_cons n hn x xs] at hp
        rcases List.mem_cons.mp hp with rfl | hp'
        · simp only [List.length_take]
          exact Nat.min_le_left n (x :: xs).length
        · refine ih ((x :: xs).drop n) ?_ p hp'
          simp only [List.length_drop, List.length_cons] at hl ⊢
          omega

theorem chunks_mem_length {α : Type} (n : ℕ) (l : List α) :
    ∀ p ∈ chunks n l, p.length ≤ n :=
  chunks_mem_length_fuel n l.length l le_rfl

theorem chunks_ne_nil {α : Type} (n : ℕ) (hn : n ≠ 0) (l : List α)
    (hl : l ≠ []) : chunks n l ≠ [] := by
  cases l with
  | nil => exact absurd rfl hl
  | cons x xs =>
    rw [chunks_cons n hn x xs]
    simp

/-! ### Claim C9 -/

/-- Claim C9: `check_subscription` returns `True` for every user whenever
the chat id is negative or the set of forced-subscription channels is
empty, regardless of the membership oracle; and it returns `False` as
soon as any configured channel reports the user as not a member or any
membership lookup fails (in a non-negative chat, where the loop actually
runs). -/
theorem c9_check_subscription_spec (m : ℤ → ℤ → MemberRes) (u chatId : ℤ)
    (cs : List ℤ) :
    (chatId < 0 → check_subscription m u chatId cs = true) ∧
    (cs = [] → check_subscription m u chatId cs = true) ∧
    (∀ ch ∈ cs, memberOk (m ch u) = false → 0 ≤ chatId →
      check_subscription m u chatId cs = false) := by
  refine ⟨?_, ?_, ?_⟩
  · intro hc
    rw [check_subscription, if_pos hc]
  · intro hcs
    subst hcs
    rw [check_subscription]
    split_ifs
    · rfl
    · rfl
  · intro ch hmem hbad hc
    exact check_subscription_eq_false m u chatId cs (by omega) ⟨ch, hmem, hbad⟩

/-- Witness for C9: a negative chat id passes regardless of a failing
oracle, and a private chat with one non-member channel fails. -/
theorem c9_check_subscription_spec_witness :
    check_subscription allNotParticipant 5 (-3) [-1001] = true ∧
    check_subscription allNotParticipant 5 3 [-1001] = false :=
  ⟨(c9_check_subscription_spec allNotParticipant 5 (-3) [-1001]).1 (by decide),
   (c9_check_subscription_spec allNotParticipant 5 3 [-1001]).2.2 (-1001)
     (by decide) (by decide) (by decide)⟩

/-! ### Claim C7 -/

/-- Claim C7: `shorten_link` returns the stripped response
body of the shortening service exactly on an HTTP 200 response; on any non-200 status and on any
exception it returns the original URL unchanged. -/
theorem c7_shorten_link_fallback (f : HttpFetch) (url : String) :
    (∀ body, f = .response 200 body → shorten_link f url = pyStrip body) ∧
    (∀ st body, f = .response st body → st ≠ 200 → shorten_link f url = url) ∧
    (f = .raised → shorten_link f url = url) := by
  refine ⟨?_, ?_, ?_⟩
  · intro body hf
    subst hf
    simp [shorten_link]
  · intro st body hf hst
    subst hf
    simp [shorten_link, hst]
  · intro hf
    subst hf
    rfl

/-- Witness for C7: a 200 response is stripped and returned; a 500
response and an exception both fall back to the input URL. -/
theorem c7_shorten_link_fallback_witness :
    shorten_link (.response 200 " https://gp.link/x ") "u" =
      pyStrip " https://gp.link/x " ∧
    shorten_link (.response 500 "oops") "u" = "u" ∧
    shorten_link .raised "u" = "u" :=
  ⟨(c7_shorten_link_fallback (.response 200 " https://gp.link/x ") "u").1
      " https://gp.link/x " rfl,
   (c7_shorten_link_fallback (.response 500 "oops") "u").2.1 500 "oops" rfl
      (by decide),
   (c7_shorten_link_fallback .raised "u").2.2 rfl⟩

/-! ### Claim C5 -/

/-- Counterexample to claim C5 as stated: with `API_ID` and `ADMIN_ID`
set but `BOT_TOKEN` (and `API_HASH`, `GPLINK_API_KEY`) missing, module
initialisation does NOT raise `SystemExit` — the configuration loads with
the missing values as `None`, contradicting "if any of the environment
variables is missing or malformed, the process fails fast". -/
theorem c5_missing_token_counterexample :
    envMissingToken "BOT_TOKEN" = none ∧
    envMissingToken "API_HASH" = none ∧
    loadEnv envMissingToken = some ⟨123, none, none, 456, none⟩ := by
  refine ⟨by decide, by decide, by decide⟩

/-- Claim C5 amended: module initialisation raises `SystemExit` exactly
when `API_ID` or `ADMIN_ID` is missing or malformed (these two are the
only values passed through `int()`); a missing `API_HASH`, `BOT_TOKEN` or
`GPLINK_API_KEY` is loaded as `None` without any check. -/
theorem c5_fail_fast_iff_int_vars (env : String → Option String) :
    loadEnv env = none ↔
      ((env "API_ID").bind pyIntOfString = none ∨
       (env "ADMIN_ID").bind pyIntOfString = none) := by
  rcases h1 : (env "API_ID").bind pyIntOfString with _ | a
  · simp [loadEnv, h1]
  · rcases h2 : (env "ADMIN_ID").bind pyIntOfString with _ | b
    · simp [loadEnv, h1, h2]
    · simp [loadEnv, h1, h2]

/-- Witness for C5 (amended): with every variable absent the loader does
fail fast. -/
theorem c5_fail_fast_iff_int_vars_witness :
    loadEnv (fun _ => none) = none :=
  (c5_fail_fast_iff_int_vars (fun _ => none)).mpr (Or.inl rfl)

/-! ### Claim C4 -/

/-- Counterexample to claim C4 as stated: a queued call that raises
`FloodWait(5)` produces the sleep but is invoked exactly once — it is
never retried, contradicting "retries that same call exactly once". -/
theorem c4_no_retry_counterexample :
    ¬ retriesOnceOnFloodWait alwaysFloodWait [0] ∧
    send_message_queue alwaysFloodWait [0] =
      [.invoke 0, .slept 5] := by
  refine ⟨by decide, by decide⟩

/-- Claim C4 amended: on `FloodWait` the worker sleeps for the indicated
duration and then moves on to the next queued call; every queued call is
invoked exactly once per queue occurrence, with no retry. -/
theorem c4_floodwait_sleep_no_retry (beh : ℕ → SendRes) (q : List ℕ) :
    (∀ i, invokeCount i (send_message_queue beh q) =
      (q.filter (fun j => decide (j = i))).length) ∧
    (∀ i d, i ∈ q → beh i = .floodWait d →
      SendEvent.slept d ∈ send_message_queue beh q) := by
  constructor
  · intro i
    induction q with
    | nil => rfl
    | cons j rest ih =>
      rw [send_message_queue]
      cases hb : beh j with
      | ok =>
        simp only [invokeCount, List.filter] at ih ⊢
        by_cases hj : j = i
        · simp [hj, ih]
        · simp [hj, ih]
      | floodWait d =>
        simp only [invokeCount, List.filter] at ih ⊢
        by_cases hj : j = i
        · simp [hj, ih]
        · simp [hj, ih]
      | err =>
        simp only [invokeCount, List.filter] at ih ⊢
        by_cases hj : j = i
        · simp [hj, ih]
        · simp [hj, ih]
  · intro i d hmem hb
    induction q with
    | nil => cases hmem
    | cons j rest ih =>
      rw [send_message_queue]
      rcases List.mem_cons.mp hmem with rfl | hmem'
      · rw [hb]
        exact List.mem_cons_of_mem _ (List.mem_cons_self _ _)
      · cases beh j with
        | ok => exact List.mem_cons_of_mem _ (ih hmem')
        | floodWait e =>
          exact List.mem_cons_of_mem _ (List.mem_cons_of_mem _ (ih hmem'))
        | err => exact List.mem_cons_of_mem _ (ih hmem')

/-- Witness for C4 (amended): in a two-element queue whose first call
raises `FloodWait(5)`, each call is invoked once and the sleep event is
present. -/
theorem c4_floodwait_sleep_no_retry_witness :
    invokeCount 0 (send_message_queue alwaysFloodWait [0, 1]) =
      (([0, 1] : List ℕ).filter (fun j => decide (j = 0))).length ∧
    SendEvent.slept 5 ∈ send_message_queue alwaysFloodWait [0, 1] :=
  ⟨(c4_floodwait_sleep_no_retry alwaysFloodWait [0, 1]).1 0,
   (c4_floodwait_sleep_no_retry alwaysFloodWait [0, 1]).2 0 5 (by decide) rfl⟩

/-! ### Claim C10 -/

/-- Claim C10: the pagination callback partitions the cached results into
pages of at most `PAGE_SIZE` entries (and the pages concatenate back to
the full result list); it rejects any request whose cache entry or expiry
is missing or expired, and any page number below 1 or above the number of
pages; consequently the `pages[page_num - 1]` indexing never goes out of
bounds. -/
theorem c10_pagination_safe {α : Type} {T : Type} [LinearOrder T] :
    (∀ (l : List α), ∀ p ∈ chunks PAGE_SIZE l, p.length ≤ PAGE_SIZE) ∧
    (∀ (l : List α), (chunks PAGE_SIZE l).flatten = l) ∧
    (∀ (l : List α), l ≠ [] → chunks PAGE_SIZE l ≠ []) ∧
    (∀ (expiry : Option T) (now : T) (pageNum : ℤ),
      page_callback (α := α) none expiry now pageNum = .expiredOrMissing) ∧
    (∀ (res : List α) (now : T) (pageNum : ℤ),
      page_callback (some res) (none : Option T) now pageNum = .expiredOrMissing) ∧
    (∀ (res : List α) (e now : T) (pageNum : ℤ), e ≤ now →
      page_callback (some res) (some e) now pageNum = .expiredOrMissing) ∧
    (∀ (res : List α) (e now : T) (pageNum : ℤ), now < e →
      (pageNum < 1 ∨ ((chunks PAGE_SIZE res).length : ℤ) < pageNum) →
      page_callback (some res) (some e) now pageNum = .invalidPage) ∧
    (∀ (cache : Option (List α)) (expiry : Option T) (now : T) (pageNum : ℤ),
      page_callback cache expiry now pageNum ≠ .indexError) := by
  have hps : PAGE_SIZE ≠ 0 := by decide
  refine ⟨fun l => chunks_mem_length PAGE_SIZE l,
    fun l => chunks_join PAGE_SIZE hps l,
    fun l hl => chunks_ne_nil PAGE_SIZE hps l hl, ?_, ?_, ?_, ?_, ?_⟩
  · intro expiry now pageNum
    cases expiry <;> rfl
  · intro res now pageNum
    rfl
  · intro res e now pageNum he
    simp [page_callback, he]
  · intro res e now pageNum he hp
    rw [page_callback]
    rw [if_neg (not_le.mpr he), if_pos hp]
  · intro cache expiry now pageNum
    rcases cache with _ | res
    · cases expiry <;> simp [page_callback]
    · rcases expiry with _ | e
      · simp [page_callback]
      · by_cases h1 : e ≤ now
        · simp [page_callback, h1]
        · by_cases h2 : pageNum < 1 ∨ ((chunks PAGE_SIZE res).length : ℤ) < pageNum
          · rw [page_callback, if_neg h1, if_pos h2]
            intro h
            cases h
          · have h2' := h2
            push_neg at h2'
            have hlt : (pageNum - 1).toNat < (chunks PAGE_SIZE res).length := by
              omega
            rcases hg : (chunks PAGE_SIZE res).get? (pageNum - 1).toNat with _ | p
            · rw [List.get?_eq_none] at hg
              omega
            · rw [page_callback, if_neg h1, if_neg h2]
              rw [hg]
              intro h
              cases h

/-- Witness for C10: for the cached results `[1, 2, 3]` (in integer time),
an expired cache is rejected, page 0 is rejected, and page 1 does not go
out of bounds. -/
theorem c10_pagination_safe_witness :
    page_callback (α := ℕ) (T := ℤ) (some [1, 2, 3]) (some 100) 100 2 =
      .expiredOrMissing ∧
    page_callback (α := ℕ) (T := ℤ) (some [1, 2, 3]) (some 100) 5 0 =
      .invalidPage ∧
    page_callback (α := ℕ) (T := ℤ) (some [1, 2, 3]) (some 100) 5 1 ≠
      .indexError :=
  ⟨(c10_pagination_safe (α := ℕ) (T := ℤ)).2.2.2.2.2.1 [1, 2, 3] 100 100 2
      (by decide),
   (c10_pagination_safe (α := ℕ) (T := ℤ)).2.2.2.2.2.2.1 [1, 2, 3] 100 5 0
      (by decide) (Or.inl (by decide)),
   (c10_pagination_safe (α := ℕ) (T := ℤ)).2.2.2.2.2.2.2 (some [1, 2, 3])
      (some 100) 5 1⟩

/-! ### Claim C1 -/

/-- Counterexample to claim C1 as stated: 22 sends queued at time 0 and
drained back to back under the default configuration
(`RATE_LIMIT_MAX_MESSAGES = 20`, `RATE_LIMIT_WINDOW = 30`,
`MIN_MESSAGE_DELAY = 1`) produce the actual send times
`[0, 1, 1, 2, 2, …, 9, 9, 10, 30, 30]`: the window `[0, 30]` contains 22
sends (more than 20) and consecutive sends coincide (violating the
minimum delay), because `rate_limit_message` records the pre-sleep clock
reading instead of the actual send time. -/
theorem c1_rate_limit_counterexample :
    ¬ (windowCapped RATE_LIMIT_MAX_MESSAGES ((RATE_LIMIT_WINDOW : ℕ) : ℤ)
        (runQueue RATE_LIMIT_MAX_MESSAGES ((MIN_MESSAGE_DELAY : ℕ) : ℤ)
          ((RATE_LIMIT_WINDOW : ℕ) : ℤ) 22 [] 0) = true ∧
       minSpaced ((MIN_MESSAGE_DELAY : ℕ) : ℤ)
        (runQueue RATE_LIMIT_MAX_MESSAGES ((MIN_MESSAGE_DELAY : ℕ) : ℤ)
          ((RATE_LIMIT_WINDOW : ℕ) : ℤ) 22 [] 0) = true) := by
  decide

/-- `dropOld` only keeps timestamps within the window of `now`, provided
the deque is sorted (which it is in every actual run, timestamps being
appended in clock order). -/
theorem dropOld_sub_le {T : Type} [LinearOrderedCommRing T]
    (window now : T) (ts : List T) (hs : ts.Pairwise (· ≤ ·)) :
    ∀ t ∈ dropOld window now ts, now - t ≤ window := by
  induction ts with
  | nil =>
    intro t ht
    simp [dropOld] at ht
  | cons a rest ih =>
    rw [dropOld]
    split_ifs with h
    · exact ih (List.Pairwise.of_cons hs)
    · intro t ht
      rcases List.mem_cons.mp ht with rfl | ht'
      · push_neg at h
        linarith
      · have hat : a ≤ t := (List.pairwise_cons.mp hs).1 t ht'
        push_neg at h
        linarith

/-- Claim C1 amended: `rate_limit_message` performs exactly the claimed
bookkeeping — it drops timestamps older than the window from the (sorted)
deque, when the cleaned deque is full it sleeps until `RATE_LIMIT_WINDOW`
past the oldest *recorded* timestamp, and it sleeps so that at least
`MIN_MESSAGE_DELAY` elapses after the second-newest *recorded* timestamp.
Because the timestamp it records is the pre-sleep clock reading and not
the actual send time, these guarantees hold only relative to recorded
timestamps; the window bound and minimum spacing over actual send times
fail (see the counterexample). -/
theorem c1_rate_limiter_mechanism {T : Type} [LinearOrderedCommRing T]
    (maxMsgs : ℕ) (minDelay window : T) (ts : List T) (now : T)
    (hsorted : ts.Pairwise (· ≤ ·)) :
    (∀ t ∈ dropOld window now ts, now - t ≤ window) ∧
    (maxMsgs ≤ (dropOld window now ts).length →
      (dropOld window now ts).headD 0 + window ≤
        now + (rate_limit_message maxMsgs minDelay window ts now).1) ∧
    (1 < (rate_limit_message maxMsgs minDelay window ts now).2.length →
      (rate_limit_message maxMsgs minDelay window ts now).2.getD
          ((rate_limit_message maxMsgs minDelay window ts now).2.length - 2) 0
        + minDelay ≤
        now + (rate_limit_message maxMsgs minDelay window ts now).1) := by
  refine ⟨dropOld_sub_le window now ts hsorted, ?_, ?_⟩
  · intro hfull
    simp only [rate_limit_message]
    rw [if_pos hfull]
    split_ifs with h1 h2 h3 <;> linarith
  · intro hlen
    simp only [rate_limit_message] at hlen ⊢
    rw [if_pos hlen]
    split_ifs with h1 h2 h3 <;> linarith

/-- Witness for C1 (amended), at integer time with a full sorted deque
`[0, 5]`, `maxMsgs = 2`, `window = 30`, `minDelay = 1`, `now = 10`:
the retained timestamp `0` is within the window, and the worker sleeps
until `0 + 30`. -/
theorem c1_rate_limiter_mechanism_witness :
    ((10 : ℤ) - 0 ≤ 30) ∧
    ((dropOld (30 : ℤ) 10 [0, 5]).headD 0 + 30 ≤
      10 + (rate_limit_message 2 (1 : ℤ) 30 [0, 5] 10).1) :=
  ⟨(c1_rate_limiter_mechanism 2 (1 : ℤ) 30 [0, 5] 10 (by decide)).1 0
      (by decide),
   (c1_rate_limiter_mechanism 2 (1 : ℤ) 30 [0, 5] 10 (by decide)).2.1
      (by decide)⟩

/-! ### Claim C2 -/

/-- Counterexample to claim C2 as stated: in a group chat (negative chat
id) with a forced-subscription channel configured and a user who is not a
member of it, the text handler proceeds all the way to the
content-producing search, `/start` serves its greeting, and the `get_`
callback delivers the file link — none of them replies with the join
prompt, because all three gates are guarded by `chat_id > 0`. -/
theorem c2_group_chat_counterexample :
    groupState.forceSub ≠ [] ∧
    memberOk (allNotParticipant (-1001) 5) = false ∧
    (handle_query groupState allNotParticipant allPrivs 5 (-50) "Movie").outcome =
      .contentSearch "movie" ∧
    start_handler groupState allNotParticipant 5 (-50) = .served false false ∧
    get_file_callback (T := ℤ) groupState allNotParticipant 5 (-50) 0 10000 =
      .shortenedLink := by
  decide

/-- Claim C2 amended: in a *private* chat (positive chat id), whenever
forced-subscription channels are configured and the user is not a member
of all of them, `/start` and the `get_` file-delivery callback reply with
the join prompt, and the text handler never produces content — it replies
with the join prompt unless the message is consumed even earlier by the
duplicate-message guard or by an admin pending-action branch (which
produce no content either).  In group chats the gate is skipped
entirely (see the counterexample). -/
theorem c2_private_chat_gating {T : Type} [LinearOrderedCommRing T]
    (s : BotState) (m : ℤ → ℤ → MemberRes) (privs : ℤ → Bool)
    (userId chatId : ℤ) (text : String) (verifiedTime now : T)
    (hc : 0 < chatId) (hfs : s.forceSub ≠ [])
    (hbad : ∃ ch ∈ s.forceSub, memberOk (m ch userId) = false) :
    start_handler s m userId chatId = .joinPrompt ∧
    get_file_callback s m userId chatId verifiedTime now = .joinPrompt ∧
    isContent (handle_query s m privs userId chatId text).outcome = false ∧
    (chatId ∉ s.messagePairs →
      ¬(userId ∈ s.adminList ∧ (lookupP s.pending userId).isSome) →
      (handle_query s m privs userId chatId text).outcome = .joinPrompt) := by
  have hsub : check_subscription m userId chatId s.forceSub = false :=
    check_subscription_eq_false m userId chatId s.forceSub (by omega) hbad
  have hgate : 0 < chatId ∧ s.forceSub ≠ [] ∧
      check_subscription m userId chatId s.forceSub = false := ⟨hc, hfs, hsub⟩
  refine ⟨?_, ?_, ?_, ?_⟩
  · rw [start_handler, if_pos hgate]
  · rw [get_file_callback, if_pos hgate]
  · rcases hlk : lookupP s.pending userId with _ | a <;>
    rcases hlk2 : lookupP s.batchKw userId with _ | b <;>
    simp only [handle_query, hqRest, hlk, hlk2] <;>
    split_ifs <;> rfl
  · intro hdup hnadm
    have hnc : ¬ (0 < chatId ∧ userId ∈ s.adminList ∧
        (lookupP s.pending userId).isSome) :=
      fun hcond => hnadm ⟨hcond.2.1, hcond.2.2⟩
    simp only [handle_query, hqRest]
    rw [if_neg hdup, if_neg hnc, if_neg hnc, if_pos hgate]

/-- Witness for C2 (amended): in private chat 3 with the single
forced-subscription channel reporting the user as not a participant, all
three handlers produce the join prompt. -/
theorem c2_private_chat_gating_witness :
    start_handler groupState allNotParticipant 5 3 = .joinPrompt ∧
    get_file_callback (T := ℤ) groupState allNotParticipant 5 3 0 0 =
      .joinPrompt ∧
    (handle_query groupState allNotParticipant allPrivs 5 3 "abc").outcome =
      .joinPrompt :=
  ⟨(c2_private_chat_gating groupState allNotParticipant allPrivs 5 3 "abc"
      (0 : ℤ) 0 (by decide) (by decide) ⟨-1001, by decide, rfl⟩).1,
   (c2_private_chat_gating groupState allNotParticipant allPrivs 5 3 "abc"
      (0 : ℤ) 0 (by decide) (by decide) ⟨-1001, by decide, rfl⟩).2.1,
   (c2_private_chat_gating groupState allNotParticipant allPrivs 5 3 "abc"
      (0 : ℤ) 0 (by decide) (by decide) ⟨-1001, by decide, rfl⟩).2.2.2
      (by decide) (by decide)⟩

/-! ### Claim C3 -/

/-- Counterexample to claim C3 as stated: in a group chat, an admin with
a pending action who submits a non-matching text is *not* rejected and
the pending action is *not* cleared — the password gate only runs when
`chat_id > 0`, so the text is treated as a search query. -/
theorem c3_group_chat_counterexample :
    (9 : ℤ) ∈ pendingState.adminList ∧
    lookupP pendingState.pending 9 = some "add_db" ∧
    normalizeQ "wrongpass" ≠ ADMIN_PASSWORD ∧
    (handle_query pendingState allNotParticipant allPrivs 9 (-4)
      "wrongpass").outcome ≠ .passwordRejected ∧
    lookupP (handle_query pendingState allNotParticipant allPrivs 9 (-4)
      "wrongpass").pending 9 = some "add_db" := by
  decide

/-- Claim C3 amended: in a *private* chat, when the message is not
dropped by the duplicate-message guard, an admin with a pending action
submitting any text whose normalisation differs from the admin password
is rejected and the pending action is removed. -/
theorem c3_password_gate_rejects_and_clears (s : BotState)
    (m : ℤ → ℤ → MemberRes) (privs : ℤ → Bool) (userId chatId : ℤ)
    (text : String) (hc : 0 < chatId) (hadm : userId ∈ s.adminList)
    (hpend : (lookupP s.pending userId).isSome = true)
    (hdup : chatId ∉ s.messagePairs)
    (hpw : normalizeQ text ≠ ADMIN_PASSWORD) :
    (handle_query s m privs userId chatId text).outcome = .passwordRejected ∧
    lookupP (handle_query s m privs userId chatId text).pending userId =
      none := by
  have hcond : 0 < chatId ∧ userId ∈ s.adminList ∧
      (lookupP s.pending userId).isSome := ⟨hc, hadm, hpend⟩
  simp only [handle_query]
  rw [if_neg hdup, if_pos hcond, if_neg hpw]
  refine ⟨rfl, ?_⟩
  rw [lookupP_eraseP]
  simp

/-- Witness for C3 (amended): admin 9, pending `"add_db"`, private chat
3, text `"zzz"`. -/
theorem c3_password_gate_rejects_and_clears_witness :
    (handle_query pendingState allNotParticipant allPrivs 9 3 "zzz").outcome =
      .passwordRejected ∧
    lookupP (handle_query pendingState allNotParticipant allPrivs 9 3
      "zzz").pending 9 = none :=
  c3_password_gate_rejects_and_clears pendingState allNotParticipant allPrivs
    9 3 "zzz" (by decide) (by decide) (by decide) (by decide) (by decide)

/-! ### Claim C6 -/

/-- Counterexample to claim C6 as stated: a two-character query sent in a
chat that currently has an active request/response pair is silently
dropped by the duplicate-message guard — the handler replies with
nothing, not with the too-short rejection. -/
theorem c6_duplicate_guard_counterexample :
    (normalizeQ "hi").length < 3 ∧
    (handle_query dupState allNotParticipant allPrivs 5 7 "hi").outcome =
      .ignoredDuplicate ∧
    (handle_query dupState allNotParticipant allPrivs 5 7 "hi").outcome ≠
      .tooShort := by
  decide

/-- Claim C6 amended: a query whose normalised text is shorter than 3
characters *never* reaches the content-producing search code, on any
path; and when the message additionally passes the duplicate guard, the
admin pending-action branches and the subscription gate, the handler
replies with the too-short rejection. -/
theorem c6_short_query_rejected (s : BotState) (m : ℤ → ℤ → MemberRes)
    (privs : ℤ → Bool) (userId chatId : ℤ) (text : String)
    (hlen : (normalizeQ text).length < 3) :
    isContent (handle_query s m privs userId chatId text).outcome = false ∧
    (chatId ∉ s.messagePairs →
      ¬(0 < chatId ∧ userId ∈ s.adminList ∧
        (lookupP s.pending userId).isSome) →
      ¬(0 < chatId ∧ s.forceSub ≠ [] ∧
        check_subscription m userId chatId s.forceSub = false) →
      (handle_query s m privs userId chatId text).outcome = .tooShort) := by
  constructor
  · rcases hlk : lookupP s.pending userId with _ | a <;>
    rcases hlk2 : lookupP s.batchKw userId with _ | b <;>
    simp only [handle_query, hqRest, hlk, hlk2] <;>
    split_ifs <;> rfl
  · intro hdup hnadm hngate
    simp only [handle_query, hqRest]
    rw [if_neg hdup, if_neg hnadm, if_neg hnadm, if_neg hngate, if_pos hlen]

/-- Witness for C6 (amended): query `"hi"` from a plain user in private
chat 3 with no forced channels is rejected as too short and produces no
content. -/
theorem c6_short_query_rejected_witness :
    isContent (handle_query dupState allNotParticipant allPrivs 5 3
      "hi").outcome = false ∧
    (handle_query dupState allNotParticipant allPrivs 5 3 "hi").outcome =
      .tooShort :=
  ⟨(c6_short_query_rejected dupState allNotParticipant allPrivs 5 3 "hi"
      (by decide)).1,
   (c6_short_query_rejected dupState allNotParticipant allPrivs 5 3 "hi"
      (by decide)).2 (by decide) (by decide) (by decide)⟩

/-! ### Claim C8 -/

/-- Claim C8: for every private-chat text message from an admin with a
pending action, the password-gate block consumes the message (unless the
duplicate guard consumed it even earlier), so the genbatch/editbatch
keyword-entry block of the text handler never runs and no pending action
is ever transitioned to `"genbatch_files"` or `"editbatch_files"` by the
text handler. -/
theorem c8_password_gate_shadows_batch_block (s : BotState)
    (m : ℤ → ℤ → MemberRes) (privs : ℤ → Bool) (userId chatId : ℤ)
    (text : String) (hc : 0 < chatId) (hadm : userId ∈ s.adminList)
    (hpend : (lookupP s.pending userId).isSome = true) :
    (chatId ∉ s.messagePairs →
      (handle_query s m privs userId chatId text).outcome =
          .passwordAccepted ((lookupP s.pending userId).getD "") ∨
      (handle_query s m privs userId chatId text).outcome =
          .passwordRejected) ∧
    isBatchBlockOutcome
      (handle_query s m privs userId chatId text).outcome = false ∧
    (∀ v kw, kw = "genbatch_files" ∨ kw = "editbatch_files" →
      lookupP (handle_query s m privs userId chatId text).pending v =
        some kw →
      lookupP s.pending v = some kw) := by
  have hcond : 0 < chatId ∧ userId ∈ s.adminList ∧
      (lookupP s.pending userId).isSome := ⟨hc, hadm, hpend⟩
  by_cases hdup : chatId ∈ s.messagePairs
  · simp only [handle_query]
    rw [if_pos hdup]
    exact ⟨fun h => absurd hdup h, rfl, fun v kw _ h => h⟩
  · simp only [handle_query]
    rw [if_neg hdup, if_pos hcond]
    by_cases hpw : normalizeQ text = ADMIN_PASSWORD
    · rw [if_pos hpw]
      refine ⟨fun _ => Or.inl rfl, rfl, ?_⟩
      intro v kw _ h
      simp only at h
      rw [lookupP_eraseP] at h
      split_ifs at h
      exact h
    · rw [if_neg hpw]
      refine ⟨fun _ => Or.inr rfl, rfl, ?_⟩
      intro v kw _ h
      simp only at h
      rw [lookupP_eraseP] at h
      split_ifs at h
      exact h

/-- Witness for C8: admin 9 with pending `"add_db"` in private chat 3
sending `"zzz"` ends in a password-gate outcome and no batch-block
outcome. -/
theorem c8_password_gate_shadows_batch_block_witness :
    ((handle_query pendingState allNotParticipant allPrivs 9 3
        "zzz").outcome =
      .passwordAccepted ((lookupP pendingState.pending 9).getD "") ∨
     (handle_query pendingState allNotParticipant allPrivs 9 3
        "zzz").outcome = .passwordRejected) ∧
    isBatchBlockOutcome
      (handle_query pendingState allNotParticipant allPrivs 9 3
        "zzz").outcome = false :=
  ⟨(c8_password_gate_shadows_batch_block pendingState allNotParticipant
      allPrivs 9 3 "zzz" (by decide) (by decide) (by decide)).1 (by decide),
   (c8_password_gate_shadows_batch_block pendingState allNotParticipant
      allPrivs 9 3 "zzz" (by decide) (by decide) (by decide)).2.1⟩

end FileSender
